import Mathlib

set_option autoImplicit false

/- Shallow embedding of the document access and proof layer:
   DocumentRepository (js-drive), DriveClient (the RPC gateway) and the
   query stripping / error reclassification logic, translated from the
   JavaScript sources. JavaScript values that the claims touch are
   modelled by the inductive type JsValue; objects are ordered
   association lists, matching JavaScript property insertion order. -/

inductive JsValue where
  | undef
  | null
  | boolean (b : Bool)
  | num (n : Int)
  | str (s : String)
  | buf (bytes : List Nat)
  | arr (elems : List JsValue)
  | obj (fields : List (String × JsValue))
deriving Repr

/-- True exactly on the JavaScript value `undefined`. -/
def JsValue.isUndef : JsValue → Bool
  | .undef => true
  | _ => false

abbrev JsObject := List (String × JsValue)

/-- JavaScript `s.startsWith(p)` over the character sequence of `s`. -/
def jsStartsWith (s p : String) : Bool := s.data.take p.data.length == p.data

/-- JavaScript `s.substring(n, s.length)`: the characters of `s` from index `n` on. -/
def jsSubstringFrom (s : String) (n : Nat) : String := String.mk (s.data.drop n)

/- Fee accounting: the PreCalculatedOperation carried by every StorageResult,
   built from the fee signal returned by the store (dppWasm.PreCalculatedOperation). -/

structure FeeResult where
  storageFee : Int
  processingFee : Int
  feeRefunds : List (String × Int)
deriving DecidableEq, Repr

structure PreCalculatedOperation where
  storageFee : Int
  processingFee : Int
  feeRefunds : List (String × Int)
deriving DecidableEq, Repr

/-- StorageResult pairs a value with the ordered fee operations performed to produce it. -/
structure StorageResult (α : Type) where
  value : α
  operations : List PreCalculatedOperation
deriving DecidableEq, Repr

/- DocumentRepository.find / DocumentRepository.prove: query preprocessing.
   Both deep-clone the options and then delete control keys and
   undefined-valued keys from the clone before it reaches the store.
   find deletes useTransaction, dryRun and blockInfo; prove deletes only
   useTransaction and dryRun. On an ordered association list that
   key-by-key deletion amounts to a filter. -/

def stripFind (options : JsObject) : JsObject :=
  options.filter (fun kv =>
    !(kv.1 == "useTransaction") && !(kv.1 == "dryRun") && !(kv.1 == "blockInfo")
      && !(kv.2.isUndef))

def stripProve (options : JsObject) : JsObject :=
  options.filter (fun kv =>
    !(kv.1 == "useTransaction") && !(kv.1 == "dryRun") && !(kv.2.isUndef))

/- Error reclassification in the catch blocks of find and prove. -/

inductive FindError where
  | invalidQuery (message : String)
  | reraised (message : String)
deriving DecidableEq, Repr

/-- The catch block of DocumentRepository.find: reclassify store errors whose
message carries one of four known markers into InvalidQueryError, re-raise
anything else unchanged. -/
def reclassifyFindError (message : String) : FindError :=
  if jsStartsWith message "query: " then .invalidQuery (jsSubstringFrom message 7)
  else if jsStartsWith message "structure: " then .invalidQuery (jsSubstringFrom message 11)
  else if jsStartsWith message "contract: " then .invalidQuery (jsSubstringFrom message 10)
  else if jsStartsWith message "protocol: " then .invalidQuery (jsSubstringFrom message 10)
  else .reraised message

/-- The catch block of DocumentRepository.prove: like find but without the
protocol marker case. -/
def reclassifyProveError (message : String) : FindError :=
  if jsStartsWith message "query: " then .invalidQuery (jsSubstringFrom message 7)
  else if jsStartsWith message "structure: " then .invalidQuery (jsSubstringFrom message 11)
  else if jsStartsWith message "contract: " then .invalidQuery (jsSubstringFrom message 10)
  else .reraised message

/-- DocumentRepository.find, as a function of the outcome of the store call
`storage.getDrive().queryDocuments(...)`: on success the documents and the
processing cost, on failure the error message. -/
def DocumentRepository.find (storeResult : Except String (List JsValue × Int)) :
    Except FindError (StorageResult (List JsValue)) :=
  match storeResult with
  | .ok (documents, processingCost) =>
      .ok { value := documents
            operations := [{ storageFee := 0, processingFee := processingCost, feeRefunds := [] }] }
  | .error e => .error (reclassifyFindError e)

/-- DocumentRepository.prove, as a function of the outcome of the store call
`storage.getDrive().proveDocumentsQuery(...)`. -/
def DocumentRepository.prove (storeResult : Except String (List Nat × Int)) :
    Except FindError (StorageResult (List Nat)) :=
  match storeResult with
  | .ok (proof, processingCost) =>
      .ok { value := proof
            operations := [{ storageFee := 0, processingFee := processingCost, feeRefunds := [] }] }
  | .error e => .error (reclassifyProveError e)

/-- DocumentRepository.find composed with its query preprocessing: the store
behaviour is a parameter receiving the stripped query. -/
def DocumentRepository.findOn (queryDocuments : JsObject → Except String (List JsValue × Int))
    (options : JsObject) : Except FindError (StorageResult (List JsValue)) :=
  DocumentRepository.find (queryDocuments (stripFind options))

/-- DocumentRepository.prove composed with its query preprocessing. -/
def DocumentRepository.proveOn (proveDocumentsQuery : JsObject → Except String (List Nat × Int))
    (options : JsObject) : Except FindError (StorageResult (List Nat)) :=
  DocumentRepository.prove (proveDocumentsQuery (stripProve options))

/- Helper lemmas about the character-level string operations. -/

theorem take_cons_head {l : List Char} {a : Char} {rest : List Char} {n : Nat}
    (h : l.take (n + 1) = a :: rest) : l.head? = some a := by
  cases l with
  | nil => simp at h
  | cons x xs =>
    simp [List.take] at h
    simp [h.1]

theorem jsStartsWith_iff (s p : String) : jsStartsWith s p = true ↔ ∃ r, s = p ++ r := by
  constructor
  · intro h
    simp only [jsStartsWith, beq_iff_eq] at h
    refine ⟨String.mk (s.data.drop p.data.length), ?_⟩
    have h2 : s.data = p.data ++ s.data.drop p.data.length := by
      conv_lhs => rw [← List.take_append_drop p.data.length s.data]
      rw [h]
    exact congrArg String.mk h2
  · rintro ⟨r, rfl⟩
    simp [jsStartsWith, String.data_append, List.take_left]

theorem jsStartsWith_append (p r : String) : jsStartsWith (p ++ r) p = true :=
  (jsStartsWith_iff (p ++ r) p).mpr ⟨r, rfl⟩

theorem jsStartsWith_head (s p : String) (hp0 : p.data ≠ [])
    (h : jsStartsWith s p = true) : s.data.head? = p.data.head? := by
  simp only [jsStartsWith, beq_iff_eq] at h
  cases hp : p.data with
  | nil => exact absurd hp hp0
  | cons a rest =>
    rw [hp] at h
    simp only [List.length_cons] at h
    simp [take_cons_head h]

theorem jsStartsWith_excl (s p q : String) (hne : p.data.head? ≠ q.data.head?)
    (hp0 : p.data ≠ []) (hq0 : q.data ≠ [])
    (hp : jsStartsWith s p = true) : jsStartsWith s q = false := by
  by_contra hcon
  rw [Bool.not_eq_false] at hcon
  exact hne ((jsStartsWith_head s p hp0 hp).symm.trans (jsStartsWith_head s q hq0 hcon))

theorem ne_append_of_head (s p : String) (h : s.data.head? ≠ p.data.head?)
    (hp0 : p.data ≠ []) : ∀ r, s ≠ p ++ r := by
  intro r hr
  apply h
  rw [hr, String.data_append]
  cases hp : p.data with
  | nil => exact absurd hp hp0
  | cons a rest => simp [hp]

theorem jsStartsWith_eq_false_of_no_tail (s p : String) (h : ∀ r, s ≠ p ++ r) :
    jsStartsWith s p = false := by
  by_contra hcon
  rw [Bool.not_eq_false] at hcon
  obtain ⟨r, hr⟩ := (jsStartsWith_iff s p).mp hcon
  exact h r hr

theorem jsSubstringFrom_append (p r : String) :
    jsSubstringFrom (p ++ r) p.data.length = r := by
  show String.mk ((p ++ r).data.drop p.data.length) = r
  rw [String.data_append, List.drop_left]

/- Helper lemmas about the query preprocessing of find and prove. -/

theorem isUndef_eq_false_iff (v : JsValue) : v.isUndef = false ↔ v ≠ .undef := by
  cases v <;> simp [JsValue.isUndef]

theorem mem_stripFind (options : JsObject) (k : String) (v : JsValue) :
    (k, v) ∈ stripFind options ↔
      ((k, v) ∈ options ∧ k ≠ "useTransaction" ∧ k ≠ "dryRun" ∧ k ≠ "blockInfo"
        ∧ v ≠ .undef) := by
  simp [stripFind, List.mem_filter]
  intro _
  cases v <;> simp [JsValue.isUndef, and_assoc]

theorem mem_stripProve (options : JsObject) (k : String) (v : JsValue) :
    (k, v) ∈ stripProve options ↔
      ((k, v) ∈ options ∧ k ≠ "useTransaction" ∧ k ≠ "dryRun" ∧ v ≠ .undef) := by
  simp [stripProve, List.mem_filter]
  intro _
  cases v <;> simp [JsValue.isUndef]

/-- C1: for every error e thrown by the store during find, a message that
starts with one of the markers "query: ", "structure: ", "contract: " or
"protocol: " makes find throw InvalidQueryError whose message is exactly the
original message with that marker removed, and any other message is re-raised
unchanged. -/
theorem find_reclassifies_known_error_markers (e rest : String) :
    (e = "query: " ++ rest →
      DocumentRepository.find (.error e) = .error (.invalidQuery rest)) ∧
    (e = "structure: " ++ rest →
      DocumentRepository.find (.error e) = .error (.invalidQuery rest)) ∧
    (e = "contract: " ++ rest →
      DocumentRepository.find (.error e) = .error (.invalidQuery rest)) ∧
    (e = "protocol: " ++ rest →
      DocumentRepository.find (.error e) = .error (.invalidQuery rest)) ∧
    ((∀ r, e ≠ "query: " ++ r) → (∀ r, e ≠ "structure: " ++ r) →
     (∀ r, e ≠ "contract: " ++ r) → (∀ r, e ≠ "protocol: " ++ r) →
      DocumentRepository.find (.error e) = .error (.reraised e)) := by
  refine ⟨?_, ?_, ?_, ?_, ?_⟩
  · rintro rfl
    have h0 : jsStartsWith ("query: " ++ rest) "query: " = true := jsStartsWith_append _ _
    have h2 : jsSubstringFrom ("query: " ++ rest) 7 = rest :=
      jsSubstringFrom_append "query: " rest
    simp [DocumentRepository.find, reclassifyFindError, h0, h2]
  · rintro rfl
    have h0 : jsStartsWith ("structure: " ++ rest) "structure: " = true :=
      jsStartsWith_append _ _
    have hq : jsStartsWith ("structure: " ++ rest) "query: " = false :=
      jsStartsWith_excl _ "structure: " _ (by decide) (by decide) (by decide) h0
    have h2 : jsSubstringFrom ("structure: " ++ rest) 11 = rest :=
      jsSubstringFrom_append "structure: " rest
    simp [DocumentRepository.find, reclassifyFindError, h0, hq, h2]
  · rintro rfl
    have h0 : jsStartsWith ("contract: " ++ rest) "contract: " = true :=
      jsStartsWith_append _ _
    have hq : jsStartsWith ("contract: " ++ rest) "query: " = false :=
      jsStartsWith_excl _ "contract: " _ (by decide) (by decide) (by decide) h0
    have hs : jsStartsWith ("contract: " ++ rest) "structure: " = false :=
      jsStartsWith_excl _ "contract: " _ (by decide) (by decide) (by decide) h0
    have h2 : jsSubstringFrom ("contract: " ++ rest) 10 = rest :=
      jsSubstringFrom_append "contract: " rest
    simp [DocumentRepository.find, reclassifyFindError, h0, hq, hs, h2]
  · rintro rfl
    have h0 : jsStartsWith ("protocol: " ++ rest) "protocol: " = true :=
      jsStartsWith_append _ _
    have hq : jsStartsWith ("protocol: " ++ rest) "query: " = false :=
      jsStartsWith_excl _ "protocol: " _ (by decide) (by decide) (by decide) h0
    have hs : jsStartsWith ("protocol: " ++ rest) "structure: " = false :=
      jsStartsWith_excl _ "protocol: " _ (by decide) (by decide) (by decide) h0
    have hc : jsStartsWith ("protocol: " ++ rest) "contract: " = false :=
      jsStartsWith_excl _ "protocol: " _ (by decide) (by decide) (by decide) h0
    have h2 : jsSubstringFrom ("protocol: " ++ rest) 10 = rest :=
      jsSubstringFrom_append "protocol: " rest
    simp [DocumentRepository.find, reclassifyFindError, h0, hq, hs, hc, h2]
  · intro hq hs hc hp
    have h1 := jsStartsWith_eq_false_of_no_tail e "query: " hq
    have h2 := jsStartsWith_eq_false_of_no_tail e "structure: " hs
    have h3 := jsStartsWith_eq_false_of_no_tail e "contract: " hc
    have h4 := jsStartsWith_eq_false_of_no_tail e "protocol: " hp
    simp [DocumentRepository.find, reclassifyFindError, h1, h2, h3, h4]

/-- C1 witness: find applied at concrete store errors, one per marker and one
unrecognized message. -/
theorem find_reclassifies_known_error_markers_witness :
    DocumentRepository.find (.error "query: bad clause") = .error (.invalidQuery "bad clause") ∧
    DocumentRepository.find (.error "structure: bad doc") = .error (.invalidQuery "bad doc") ∧
    DocumentRepository.find (.error "contract: bad id") = .error (.invalidQuery "bad id") ∧
    DocumentRepository.find (.error "protocol: bad proto") = .error (.invalidQuery "bad proto") ∧
    DocumentRepository.find (.error "boom") = .error (.reraised "boom") :=
  ⟨(find_reclassifies_known_error_markers "query: bad clause" "bad clause").1 (by decide),
   (find_reclassifies_known_error_markers "structure: bad doc" "bad doc").2.1 (by decide),
   (find_reclassifies_known_error_markers "contract: bad id" "bad id").2.2.1 (by decide),
   (find_reclassifies_known_error_markers "protocol: bad proto" "bad proto").2.2.2.1 (by decide),
   (find_reclassifies_known_error_markers "boom" "").2.2.2.2
     (ne_append_of_head _ _ (by decide) (by decide))
     (ne_append_of_head _ _ (by decide) (by decide))
     (ne_append_of_head _ _ (by decide) (by decide))
     (ne_append_of_head _ _ (by decide) (by decide))⟩

/-- C2: prove reclassifies store errors marked "query: ", "structure: " or
"contract: " into InvalidQueryError with the marker stripped, but, unlike
find, re-raises a "protocol: "-marked error unchanged instead of
reclassifying it. -/
theorem prove_reraises_protocol_marker (e rest : String) :
    (e = "query: " ++ rest →
      DocumentRepository.prove (.error e) = .error (.invalidQuery rest)) ∧
    (e = "structure: " ++ rest →
      DocumentRepository.prove (.error e) = .error (.invalidQuery rest)) ∧
    (e = "contract: " ++ rest →
      DocumentRepository.prove (.error e) = .error (.invalidQuery rest)) ∧
    (e = "protocol: " ++ rest →
      DocumentRepository.prove (.error e) = .error (.reraised e) ∧
      DocumentRepository.find (.error e) = .error (.invalidQuery rest)) := by
  refine ⟨?_, ?_, ?_, ?_⟩
  · rintro rfl
    have h0 : jsStartsWith ("query: " ++ rest) "query: " = true := jsStartsWith_append _ _
    have h2 : jsSubstringFrom ("query: " ++ rest) 7 = rest :=
      jsSubstringFrom_append "query: " rest
    simp [DocumentRepository.prove, reclassifyProveError, h0, h2]
  · rintro rfl
    have h0 : jsStartsWith ("structure: " ++ rest) "structure: " = true :=
      jsStartsWith_append _ _
    have hq : jsStartsWith ("structure: " ++ rest) "query: " = false :=
      jsStartsWith_excl _ "structure: " _ (by decide) (by decide) (by decide) h0
    have h2 : jsSubstringFrom ("structure: " ++ rest) 11 = rest :=
      jsSubstringFrom_append "structure: " rest
    simp [DocumentRepository.prove, reclassifyProveError, h0, hq, h2]
  · rintro rfl
    have h0 : jsStartsWith ("contract: " ++ rest) "contract: " = true :=
      jsStartsWith_append _ _
    have hq : jsStartsWith ("contract: " ++ rest) "query: " = false :=
      jsStartsWith_excl _ "contract: " _ (by decide) (by decide) (by decide) h0
    have hs : jsStartsWith ("contract: " ++ rest) "structure: " = false :=
      jsStartsWith_excl _ "contract: " _ (by decide) (by decide) (by decide) h0
    have h2 : jsSubstringFrom ("contract: " ++ rest) 10 = rest :=
      jsSubstringFrom_append "contract: " rest
    simp [DocumentRepository.prove, reclassifyProveError, h0, hq, hs, h2]
  · rintro rfl
    have h0 : jsStartsWith ("protocol: " ++ rest) "protocol: " = true :=
      jsStartsWith_append _ _
    have hq : jsStartsWith ("protocol: " ++ rest) "query: " = false :=
      jsStartsWith_excl _ "protocol: " _ (by decide) (by decide) (by decide) h0
    have hs : jsStartsWith ("protocol: " ++ rest) "structure: " = false :=
      jsStartsWith_excl _ "protocol: " _ (by decide) (by decide) (by decide) h0
    have hc : jsStartsWith ("protocol: " ++ rest) "contract: " = false :=
      jsStartsWith_excl _ "protocol: " _ (by decide) (by decide) (by decide) h0
    have h2 : jsSubstringFrom ("protocol: " ++ rest) 10 = rest :=
      jsSubstringFrom_append "protocol: " rest
    constructor
    · simp [DocumentRepository.prove, reclassifyProveError, hq, hs, hc]
    · simp [DocumentRepository.find, reclassifyFindError, h0, hq, hs, hc, h2]

/-- C2 witness: the three markers prove reclassifies, and the protocol-marked
message that prove re-raises while find reclassifies it. -/
theorem prove_reraises_protocol_marker_witness :
    DocumentRepository.prove (.error "query: bad clause") = .error (.invalidQuery "bad clause") ∧
    DocumentRepository.prove (.error "structure: bad doc") = .error (.invalidQuery "bad doc") ∧
    DocumentRepository.prove (.error "contract: bad id") = .error (.invalidQuery "bad id") ∧
    DocumentRepository.prove (.error "protocol: bad proto") = .error (.reraised "protocol: bad proto") ∧
    DocumentRepository.find (.error "protocol: bad proto") = .error (.invalidQuery "bad proto") :=
  ⟨(prove_reraises_protocol_marker "query: bad clause" "bad clause").1 (by decide),
   (prove_reraises_protocol_marker "structure: bad doc" "bad doc").2.1 (by decide),
   (prove_reraises_protocol_marker "contract: bad id" "bad id").2.2.1 (by decide),
   ((prove_reraises_protocol_marker "protocol: bad proto" "bad proto").2.2.2 (by decide)).1,
   ((prove_reraises_protocol_marker "protocol: bad proto" "bad proto").2.2.2 (by decide)).2⟩

/-- C3 (amended): the query payload forwarded by find contains neither
useTransaction, nor dryRun, nor blockInfo, nor any key with an undefined
value, while the payload forwarded by prove is stripped only of
useTransaction, dryRun and undefined-valued keys (blockInfo is forwarded by
prove when present); all remaining fields are forwarded unchanged and in
order. -/
theorem forwarded_query_strips_control_fields (options : JsObject) (k : String) (v : JsValue) :
    ((k, v) ∈ stripFind options ↔
      ((k, v) ∈ options ∧ k ≠ "useTransaction" ∧ k ≠ "dryRun" ∧ k ≠ "blockInfo"
        ∧ v ≠ .undef)) ∧
    ((k, v) ∈ stripProve options ↔
      ((k, v) ∈ options ∧ k ≠ "useTransaction" ∧ k ≠ "dryRun" ∧ v ≠ .undef)) ∧
    List.Sublist (stripFind options) options ∧
    List.Sublist (stripProve options) options :=
  ⟨mem_stripFind options k v, mem_stripProve options k v,
   List.filter_sublist options, List.filter_sublist options⟩

/-- C3 counterexample: prove does not delete blockInfo from its forwarded
query payload, while find does; an options object carrying a blockInfo field
reaches the store unfiltered through prove. -/
theorem prove_forwards_blockInfo :
    ("blockInfo", JsValue.null) ∈ stripProve [("blockInfo", JsValue.null)] ∧
    ("blockInfo", JsValue.null) ∉ stripFind [("blockInfo", JsValue.null)] := by
  constructor
  · simp [stripProve, JsValue.isUndef]
  · simp [stripFind]

/-- C6: every successful find and every successful prove returns a
StorageResult carrying exactly one fee operation, whose storage fee is zero,
whose processing fee is the processing cost reported by the store, and whose
refund list is empty. -/
theorem read_operations_have_zero_storage_fee
    (documents : List JsValue) (proof : List Nat) (cost : Int) :
    DocumentRepository.find (.ok (documents, cost))
      = .ok { value := documents
              operations := [{ storageFee := 0, processingFee := cost, feeRefunds := [] }] } ∧
    DocumentRepository.prove (.ok (proof, cost))
      = .ok { value := proof
              operations := [{ storageFee := 0, processingFee := cost, feeRefunds := [] }] } :=
  ⟨rfl, rfl⟩

/-- Modelled from the spec: the query translation performed inside the store
(the queryDocuments implementation behind storage.getDrive(), which is not
among the sampled sources) rejects any query that sets both startAt and
startAfter with a query-marker error message, regardless of the other fields;
on every other query it behaves as the supplied oracle. -/
def queryDocumentsModel (oracle : JsObject → Except String (List JsValue × Int))
    (query : JsObject) : Except String (List JsValue × Int) :=
  if query.any (fun kv => kv.1 == "startAt") && query.any (fun kv => kv.1 == "startAfter") then
    .error "query: startAt and startAfter cannot be used simultaneously"
  else oracle query

/-- C4: for every query that sets both startAt and startAfter (to defined
values), find fails with InvalidQueryError, regardless of the other fields of
the query and of the store behaviour on other queries. -/
theorem find_rejects_both_range_cursors
    (oracle : JsObject → Except String (List JsValue × Int)) (options : JsObject)
    (v w : JsValue) (hAt : ("startAt", v) ∈ options) (hAfter : ("startAfter", w) ∈ options)
    (hv : v ≠ .undef) (hw : w ≠ .undef) :
    DocumentRepository.findOn (queryDocumentsModel oracle) options
      = .error (.invalidQuery "startAt and startAfter cannot be used simultaneously") := by
  have hAt2 : ("startAt", v) ∈ stripFind options :=
    (mem_stripFind options "startAt" v).mpr ⟨hAt, by decide, by decide, by decide, hv⟩
  have hAfter2 : ("startAfter", w) ∈ stripFind options :=
    (mem_stripFind options "startAfter" w).mpr ⟨hAfter, by decide, by decide, by decide, hw⟩
  have hb1 : (stripFind options).any (fun kv => kv.1 == "startAt") = true :=
    List.any_eq_true.mpr ⟨("startAt", v), hAt2, by simp⟩
  have hb2 : (stripFind options).any (fun kv => kv.1 == "startAfter") = true :=
    List.any_eq_true.mpr ⟨("startAfter", w), hAfter2, by simp⟩
  have hstore : queryDocumentsModel oracle (stripFind options)
      = .error "query: startAt and startAfter cannot be used simultaneously" := by
    simp [queryDocumentsModel, hb1, hb2]
  have hclass : reclassifyFindError "query: startAt and startAfter cannot be used simultaneously"
      = .invalidQuery "startAt and startAfter cannot be used simultaneously" := by decide
  show DocumentRepository.find (queryDocumentsModel oracle (stripFind options)) = _
  rw [hstore]
  simp [DocumentRepository.find, hclass]

/-- C4 witness: a concrete query carrying both range cursors, against a store
oracle that would otherwise succeed. -/
theorem find_rejects_both_range_cursors_witness :
    DocumentRepository.findOn (queryDocumentsModel (fun _ => .ok ([], 0)))
        [("startAt", JsValue.buf [1]), ("startAfter", JsValue.buf [2]), ("limit", JsValue.num 5)]
      = .error (.invalidQuery "startAt and startAfter cannot be used simultaneously") :=
  find_rejects_both_range_cursors (fun _ => .ok ([], 0)) _
    (JsValue.buf [1]) (JsValue.buf [2]) (by simp) (by simp) (by simp) (by simp)

/- Create, update and delete wrap the store call in try/finally. The finally
   block, when a logger is configured, builds the structured log entry, whose
   appHash field awaits storage.getRootHash(options) before logger.info can
   run. In JavaScript an exception raised inside a finally block replaces the
   completion of the try block. Outcomes of effectful JavaScript computations
   are modelled by JsOutcome: a normal completion or a thrown error. -/

inductive JsOutcome (α : Type) where
  | normal (value : α)
  | thrown (error : String)
deriving DecidableEq, Repr

/-- JavaScript try/finally: if the finally block throws, its exception
replaces the outcome of the try block; otherwise the try outcome stands. -/
def jsTryFinally {α : Type} (tryOutcome : JsOutcome α) (finallyOutcome : JsOutcome Unit) :
    JsOutcome α :=
  match finallyOutcome with
  | .thrown f => .thrown f
  | .normal _ => tryOutcome

/-- The finally block of create, update and delete: with a logger configured
it evaluates the log entry arguments, awaiting getRootHash; a rejection of
getRootHash escapes the finally block before logger.info runs. Without a
logger the block does nothing. -/
def loggingFinalizer (loggerPresent : Bool) (rootHash : JsOutcome (List Nat)) : JsOutcome Unit :=
  if loggerPresent then
    match rootHash with
    | .thrown f => .thrown f
    | .normal _ => .normal ()
  else .normal ()

/-- Whether logger.info actually runs: it needs a configured logger and a
successful getRootHash call for the appHash argument. -/
def logEmitted (loggerPresent : Bool) (rootHash : JsOutcome (List Nat)) : Bool :=
  loggerPresent && (match rootHash with | .normal _ => true | .thrown _ => false)

/-- The StorageResult that create, update and delete build from the fee signal
returned by the store. -/
def feeStorageResult (feeResult : FeeResult) : StorageResult Unit :=
  { value := ()
    operations := [{ storageFee := feeResult.storageFee
                     processingFee := feeResult.processingFee
                     feeRefunds := feeResult.feeRefunds }] }

/-- The outcome of the try block plus result construction shared by create,
update and delete: a successful store call yields the fee-bearing
StorageResult, a store failure is thrown. -/
def mutationOutcome (storeResult : JsOutcome FeeResult) : JsOutcome (StorageResult Unit) :=
  match storeResult with
  | .normal feeResult => .normal (feeStorageResult feeResult)
  | .thrown e => .thrown e

/-- DocumentRepository.create as a function of the outcome of
storage.getDrive().createDocument, the logger configuration and the outcome of
storage.getRootHash; the second component records whether logger.info ran. -/
def DocumentRepository.create (storeResult : JsOutcome FeeResult) (loggerPresent : Bool)
    (rootHash : JsOutcome (List Nat)) : JsOutcome (StorageResult Unit) × Bool :=
  (jsTryFinally (mutationOutcome storeResult) (loggingFinalizer loggerPresent rootHash),
   logEmitted loggerPresent rootHash)

/-- DocumentRepository.update: same try/finally and logging shape as create,
over storage.getDrive().updateDocument. -/
def DocumentRepository.update (storeResult : JsOutcome FeeResult) (loggerPresent : Bool)
    (rootHash : JsOutcome (List Nat)) : JsOutcome (StorageResult Unit) × Bool :=
  (jsTryFinally (mutationOutcome storeResult) (loggingFinalizer loggerPresent rootHash),
   logEmitted loggerPresent rootHash)

/-- DocumentRepository.delete: the return is inside the try block, but the
observable outcome composition with its finally block is the same as for
create and update. -/
def DocumentRepository.delete (storeResult : JsOutcome FeeResult) (loggerPresent : Bool)
    (rootHash : JsOutcome (List Nat)) : JsOutcome (StorageResult Unit) × Bool :=
  (jsTryFinally (mutationOutcome storeResult) (loggingFinalizer loggerPresent rootHash),
   logEmitted loggerPresent rootHash)

/-- C5 counterexample: with a logger configured, a successful create whose
post-operation getRootHash call fails makes the caller observe the root hash
failure instead of the original StorageResult, and the log entry is not
emitted either. -/
theorem rootHash_failure_masks_create_result :
    (DocumentRepository.create (.normal ⟨3, 5, []⟩) true (.thrown "root hash failure")).1
      = .thrown "root hash failure" ∧
    (DocumentRepository.create (.normal ⟨3, 5, []⟩) true (.thrown "root hash failure")).1
      ≠ .normal (feeStorageResult ⟨3, 5, []⟩) ∧
    (DocumentRepository.create (.normal ⟨3, 5, []⟩) true (.thrown "root hash failure")).2
      = false := by
  refine ⟨rfl, ?_, rfl⟩
  decide

/-- C5 (amended): the log entry attempt is independent of the operation's own
success or failure; when the finally block completes normally the caller
observes the original result or error of create, update and delete; but when
a logger is configured and getRootHash fails, that failure replaces the
original outcome and no log entry is emitted. -/
theorem mutation_logging_exit_paths
    (storeResult storeResult2 : JsOutcome FeeResult) (loggerPresent : Bool)
    (rootHash : JsOutcome (List Nat)) (f : String) :
    ((DocumentRepository.create storeResult loggerPresent rootHash).2
      = (DocumentRepository.create storeResult2 loggerPresent rootHash).2) ∧
    (loggingFinalizer loggerPresent rootHash = .normal () →
      (DocumentRepository.create storeResult loggerPresent rootHash).1 = mutationOutcome storeResult ∧
      (DocumentRepository.update storeResult loggerPresent rootHash).1 = mutationOutcome storeResult ∧
      (DocumentRepository.delete storeResult loggerPresent rootHash).1 = mutationOutcome storeResult) ∧
    (loggerPresent = true → rootHash = .thrown f →
      (DocumentRepository.create storeResult loggerPresent rootHash).1 = .thrown f ∧
      (DocumentRepository.update storeResult loggerPresent rootHash).1 = .thrown f ∧
      (DocumentRepository.delete storeResult loggerPresent rootHash).1 = .thrown f ∧
      (DocumentRepository.create storeResult loggerPresent rootHash).2 = false) := by
  refine ⟨rfl, ?_, ?_⟩
  · intro h
    simp [DocumentRepository.create, DocumentRepository.update, DocumentRepository.delete,
      jsTryFinally, h]
  · rintro rfl rfl
    simp [DocumentRepository.create, DocumentRepository.update, DocumentRepository.delete,
      jsTryFinally, loggingFinalizer, logEmitted]

/-- C5 witness: the amended theorem applied at a successful root hash fetch
and at a failing one. -/
theorem mutation_logging_exit_paths_witness :
    (DocumentRepository.create (.normal ⟨3, 5, []⟩) true (.normal [0])).1
      = mutationOutcome (.normal ⟨3, 5, []⟩) ∧
    (DocumentRepository.delete (.thrown "not found") true (.thrown "root hash failure")).1
      = .thrown "root hash failure" :=
  ⟨((mutation_logging_exit_paths (.normal ⟨3, 5, []⟩) (.normal ⟨3, 5, []⟩) true
      (.normal [0]) "unused").2.1 rfl).1,
   ((mutation_logging_exit_paths (.thrown "not found") (.thrown "not found") true
      (.thrown "root hash failure") "root hash failure").2.2 rfl rfl).2.2.1⟩

/- The RPC gateway: DriveClient.request decodes the jayson reply envelope. -/

structure JsonRpcErrorObject where
  code : Option Int
  message : Option String
  data : Option JsValue

structure AbciResponse where
  code : Option Int
  value : String
  info : Option String

inductive RequestOutcome where
  | success (payload : List Nat)
  | rpcError (code : Int) (message : String) (data : Option JsValue)
  | driveError (code : Int) (info : Option String)

/-- JavaScript `a || b` on a possibly-absent number: undefined and the falsy
number 0 both select the fallback. -/
def jsOrInt (v : Option Int) (fallback : Int) : Int :=
  match v with
  | some n => if n = 0 then fallback else n
  | none => fallback

/-- JavaScript `a || b` on a possibly-absent string: undefined and the falsy
empty string both select the fallback. -/
def jsOrString (v : Option String) (fallback : String) : String :=
  match v with
  | some s => if s = "" then fallback else s
  | none => fallback

/-- Value of a character in the standard base64 alphabet, none for every
other character (Buffer.from with base64 skips those, including padding). -/
def base64DigitValue (c : Char) : Option Nat :=
  if 65 ≤ c.toNat ∧ c.toNat ≤ 90 then some (c.toNat - 65)
  else if 97 ≤ c.toNat ∧ c.toNat ≤ 122 then some (c.toNat - 71)
  else if 48 ≤ c.toNat ∧ c.toNat ≤ 57 then some (c.toNat + 4)
  else if c = '+' then some 62
  else if c = '/' then some 63
  else none

/-- Decode 6-bit groups into 8-bit bytes, truncating a trailing group the way
Buffer.from does. -/
def base64Groups : List Nat → List Nat
  | a :: b :: c :: d :: rest =>
      (a * 4 + b / 16) :: ((b % 16) * 16 + c / 4) :: ((c % 4) * 64 + d) :: base64Groups rest
  | [a, b] => [a * 4 + b / 16]
  | [a, b, c] => [a * 4 + b / 16, (b % 16) * 16 + c / 4]
  | _ => []

/-- Buffer.from(value, "base64") as raw bytes. -/
def base64Decode (s : String) : List Nat :=
  base64Groups (s.data.filterMap base64DigitValue)

/-- Modelled from the spec: createGrpcErrorFromDriveResponse (not among the
sampled sources) builds the structured backend error from the nonzero
response code and the info string. -/
def createGrpcErrorFromDriveResponse (code : Int) (info : Option String) : RequestOutcome :=
  .driveError code info

/-- DriveClient.request, as a function of the JSON-RPC reply envelope: either
a jayson error object, or a result whose response carries an optional code, a
base64-encoded value and an optional info string. -/
def DriveClient.request (error : Option JsonRpcErrorObject) (response : AbciResponse) :
    RequestOutcome :=
  match error with
  | some err =>
      .rpcError (jsOrInt err.code (-32602)) (jsOrString err.message "Internal error") err.data
  | none =>
    match response.code with
    | none => .success (base64Decode response.value)
    | some c =>
        if c = 0 then .success (base64Decode response.value)
        else createGrpcErrorFromDriveResponse c response.info

/-- C7 counterexample: a JSON-RPC error envelope whose code is present and
equal to 0 is not forwarded with its own code; the falsy-or fallback replaces
it with -32602, and an empty message is likewise replaced. -/
theorem rpc_error_code_zero_replaced :
    DriveClient.request (some { code := some 0, message := some "boom", data := none })
        { code := none, value := "", info := none }
      = .rpcError (-32602) "boom" none ∧
    DriveClient.request (some { code := some 3, message := some "", data := none })
        { code := none, value := "", info := none }
      = .rpcError 3 "Internal error" none ∧
    (-32602 : Int) ≠ 0 := by
  refine ⟨?_, ?_, by decide⟩
  · simp [DriveClient.request, jsOrInt, jsOrString]
  · simp [DriveClient.request, jsOrInt, jsOrString]

/-- C7 (amended): an error envelope throws RPCError carrying the reply data
and a code and message that fall back to -32602 and Internal error when the
supplied ones are absent or falsy (code 0, empty message) and are forwarded
verbatim otherwise; without an error envelope, a response code of 0 or absent
returns the base64-decoded value as raw bytes, and a nonzero code throws the
structured backend error built from the code and the info string. -/
theorem request_reply_dispatch
    (error : Option JsonRpcErrorObject) (response : AbciResponse) :
    (∀ err, error = some err →
      ∃ c m, DriveClient.request error response = .rpcError c m err.data ∧
        ((err.code = none ∨ err.code = some 0) → c = -32602) ∧
        (∀ n, err.code = some n → n ≠ 0 → c = n) ∧
        ((err.message = none ∨ err.message = some "") → m = "Internal error") ∧
        (∀ s, err.message = some s → s ≠ "" → m = s)) ∧
    (error = none → (response.code = none ∨ response.code = some 0) →
      DriveClient.request error response = .success (base64Decode response.value)) ∧
    (error = none → ∀ c, response.code = some c → c ≠ 0 →
      DriveClient.request error response = createGrpcErrorFromDriveResponse c response.info) := by
  refine ⟨?_, ?_, ?_⟩
  · rintro err rfl
    refine ⟨_, _, rfl, ?_, ?_, ?_, ?_⟩
    · rintro (h | h) <;> simp [jsOrInt, h]
    · intro n h hn
      simp [jsOrInt, h, hn]
    · rintro (h | h) <;> simp [jsOrString, h]
    · intro s h hs
      simp [jsOrString, h, hs]
  · rintro rfl (h | h) <;> simp [DriveClient.request, h]
  · rintro rfl c h hc
    simp [DriveClient.request, h, hc]

/-- C7 witness: the dispatch applied at a code-0 response with a payload and
at a nonzero-code response carrying an info message. -/
theorem request_reply_dispatch_witness :
    DriveClient.request none { code := some 0, value := "AA==", info := none }
      = .success (base64Decode "AA==") ∧
    DriveClient.request none { code := some 1, value := "", info := some "query: bad clause" }
      = createGrpcErrorFromDriveResponse 1 (some "query: bad clause") :=
  ⟨(request_reply_dispatch none _).2.1 rfl (Or.inr rfl),
   (request_reply_dispatch none _).2.2 rfl 1 rfl (by decide)⟩

/- Request encoding: cbor.encode(data) followed by hex. The cbor package
   emits definite-length items; a plain object becomes a map whose entries
   keep the JavaScript property insertion order, strings become UTF-8 text
   items and Buffers byte-string items. -/

/-- UTF-8 encoding of one character. -/
def utf8EncodeCharModel (c : Char) : List Nat :=
  let n := c.toNat
  if n < 128 then [n]
  else if n < 2048 then [192 + n / 64, 128 + n % 64]
  else if n < 65536 then [224 + n / 4096, 128 + n / 64 % 64, 128 + n % 64]
  else [240 + n / 262144, 128 + n / 4096 % 64, 128 + n / 64 % 64, 128 + n % 64]

def utf8Bytes (s : String) : List Nat := s.data.bind utf8EncodeCharModel

/-- Initial bytes of a definite-length CBOR item: 3-bit major type and the
shortest length or value argument. -/
def cborHead (major : Nat) (n : Nat) : List Nat :=
  if n < 24 then [major * 32 + n]
  else if n < 256 then [major * 32 + 24, n]
  else if n < 65536 then [major * 32 + 25, n / 256, n % 256]
  else if n < 4294967296 then
    [major * 32 + 26, n / 16777216 % 256, n / 65536 % 256, n / 256 % 256, n % 256]
  else
    [major * 32 + 27, n / 72057594037927936 % 256, n / 281474976710656 % 256,
     n / 1099511627776 % 256, n / 4294967296 % 256, n / 16777216 % 256, n / 65536 % 256,
     n / 256 % 256, n % 256]

mutual

/-- cbor.encode of one JavaScript value. -/
def cborEncode : JsValue → List Nat
  | .undef => [247]
  | .null => [246]
  | .boolean b => if b then [245] else [244]
  | .num n => if 0 ≤ n then cborHead 0 n.toNat else cborHead 1 (-(n + 1)).toNat
  | .str s => cborHead 3 (utf8Bytes s).length ++ utf8Bytes s
  | .buf bytes => cborHead 2 bytes.length ++ bytes
  | .arr elems => cborHead 4 elems.length ++ cborEncodeList elems
  | .obj fields => cborHead 5 fields.length ++ cborEncodeEntries fields

/-- Array elements, in order. -/
def cborEncodeList : List JsValue → List Nat
  | [] => []
  | v :: rest => cborEncode v ++ cborEncodeList rest

/-- Map entries, in property insertion order: text key then value. -/
def cborEncodeEntries : List (String × JsValue) → List Nat
  | [] => []
  | (k, v) :: rest =>
      (cborHead 3 (utf8Bytes k).length ++ utf8Bytes k) ++ cborEncode v ++ cborEncodeEntries rest

end

def hexDigit (n : Nat) : Char := if n < 10 then Char.ofNat (48 + n) else Char.ofNat (87 + n)

/-- Buffer.prototype.toString with hex: two lowercase hex digits per byte. -/
def hexEncode (bytes : List Nat) : String :=
  String.mk (bytes.bind (fun b => [hexDigit (b / 16 % 16), hexDigit (b % 16)]))

structure RequestOptions where
  path : String
  data : String
  prove : Bool
deriving DecidableEq, Repr

/-- The request options DriveClient.request assembles before the jayson call:
the path, the cbor-encoded then hex-encoded data, and the prove flag. Absent
arguments take the JavaScript defaults: data an empty object, prove false. -/
def DriveClient.buildRequestOptions (path : String) (data : Option JsObject)
    (prove : Option Bool) : RequestOptions :=
  { path := path
    data := hexEncode (cborEncode (.obj (data.getD [])))
    prove := prove.getD false }

theorem cborEncodeEntries_eq_join (l : List (String × JsValue)) :
    cborEncodeEntries l
      = (l.map (fun kv => cborEncode (.str kv.1) ++ cborEncode kv.2)).join := by
  induction l with
  | nil => rfl
  | cons kv rest ih =>
    obtain ⟨k, v⟩ := kv
    simp [cborEncodeEntries, cborEncode, ih]

/-- C8: every request serializes its data bundle with the definite-length
binary map encoding whose entries appear in property order (order-preserving)
and which is a pure function of the parameter map (equal maps yield
byte-identical encodings), hex-encodes it for transport, and sends it
alongside the prove flag, which defaults to false. -/
theorem request_encoding_deterministic (path : String) (d1 d2 : JsObject) (p : Option Bool) :
    (DriveClient.buildRequestOptions path (some d1) p).data
      = hexEncode (cborEncode (.obj d1)) ∧
    (DriveClient.buildRequestOptions path (some d1) none).prove = false ∧
    (DriveClient.buildRequestOptions path none p).data
      = hexEncode (cborEncode (.obj [])) ∧
    (d1 = d2 →
      DriveClient.buildRequestOptions path (some d1) p
        = DriveClient.buildRequestOptions path (some d2) p) ∧
    cborEncode (.obj d1) = cborHead 5 d1.length ++ cborEncodeEntries d1 ∧
    cborEncodeEntries d1
      = (d1.map (fun kv => cborEncode (.str kv.1) ++ cborEncode kv.2)).join := by
  refine ⟨rfl, rfl, rfl, ?_, by simp [cborEncode], cborEncodeEntries_eq_join d1⟩
  rintro rfl
  rfl

/-- C8 witness: the encoding facts at a concrete parameter map. -/
theorem request_encoding_deterministic_witness :
    (DriveClient.buildRequestOptions "/dataContracts" (some [("id", JsValue.buf [7])]) none).prove
      = false ∧
    DriveClient.buildRequestOptions "/dataContracts" (some [("id", JsValue.buf [7])]) (some true)
      = DriveClient.buildRequestOptions "/dataContracts" (some [("id", JsValue.buf [7])]) (some true) :=
  ⟨(request_encoding_deterministic "/dataContracts" [("id", JsValue.buf [7])]
      [("id", JsValue.buf [7])] (some true)).2.1,
   (request_encoding_deterministic "/dataContracts" [("id", JsValue.buf [7])]
      [("id", JsValue.buf [7])] (some true)).2.2.2.1 rfl⟩

/- Multi-contract proofs: proveManyDocumentsFromDifferentContracts builds one
   grovedb path query per item and hands the whole list to
   storage.proveQueryMany in a single call. -/

/-- Modelled from the spec: DataContractStoreRepository.TREE_PATH, the
contract-root tree path constant; the repository file it lives in is not
among the sampled sources. -/
def DataContractStoreRepository.TREE_PATH : List (List Nat) := [[64]]

structure PathQueryItem where
  type : String
  key : List Nat
deriving DecidableEq, Repr

structure InnerQuery where
  items : List PathQueryItem
deriving DecidableEq, Repr

structure QueryWrapper where
  query : InnerQuery
deriving DecidableEq, Repr

structure PathQuery where
  path : List (List Nat)
  query : QueryWrapper
deriving DecidableEq, Repr

structure DocumentPointer where
  dataContractId : List Nat
  documentId : List Nat
  type : String
deriving DecidableEq, Repr

/-- The per-item grovedb query built by
proveManyDocumentsFromDifferentContracts: the contract tree path extended by
the contract id, the one-byte documents subtree marker 1, the UTF-8 document
type and the one-byte leaf marker 0, with a single point item of type key for
the document id. -/
def DocumentRepository.proveManyQueries (documents : List DocumentPointer) : List PathQuery :=
  documents.map (fun d =>
    { path := DataContractStoreRepository.TREE_PATH
        ++ [d.dataContractId, [1], utf8Bytes d.type, [0]]
      query := { query := { items := [{ type := "key", key := d.documentId }] } } })

/-- Modelled from the spec: GroveDBStore.proveQueryMany (not among the sampled
sources) serves all path queries in one batched request and fails as a whole
when any sub-path proof fails; the per-path store behaviour is the subproof
parameter. -/
def GroveDBStore.proveQueryMany (subproof : PathQuery → Option (List Nat)) :
    List PathQuery → Option (List (List Nat))
  | [] => some []
  | q :: rest =>
    match subproof q, GroveDBStore.proveQueryMany subproof rest with
    | some p, some ps => some (p :: ps)
    | _, _ => none

/-- DocumentRepository.proveManyDocumentsFromDifferentContracts: build the
queries and issue the single batched store call. -/
def DocumentRepository.proveManyDocumentsFromDifferentContracts
    (subproof : PathQuery → Option (List Nat)) (documents : List DocumentPointer) :
    Option (List (List Nat)) :=
  GroveDBStore.proveQueryMany subproof (DocumentRepository.proveManyQueries documents)

theorem proveQueryMany_length (subproof : PathQuery → Option (List Nat))
    (qs : List PathQuery) (ps : List (List Nat))
    (h : GroveDBStore.proveQueryMany subproof qs = some ps) : ps.length = qs.length := by
  induction qs generalizing ps with
  | nil =>
    simp [GroveDBStore.proveQueryMany] at h
    simp [← h]
  | cons q rest ih =>
    cases hq : subproof q with
    | none => simp [GroveDBStore.proveQueryMany, hq] at h
    | some b =>
      cases hrest : GroveDBStore.proveQueryMany subproof rest with
      | none => simp [GroveDBStore.proveQueryMany, hq, hrest] at h
      | some bs =>
        simp [GroveDBStore.proveQueryMany, hq, hrest] at h
        simp [← h, List.length_cons, ih bs hrest]

theorem proveQueryMany_none_of_mem (subproof : PathQuery → Option (List Nat))
    (qs : List PathQuery) (q : PathQuery) (hq : q ∈ qs) (hnone : subproof q = none) :
    GroveDBStore.proveQueryMany subproof qs = none := by
  induction qs with
  | nil => cases hq
  | cons a rest ih =>
    rcases List.mem_cons.mp hq with hh | hh
    · subst hh
      simp [GroveDBStore.proveQueryMany, hnone]
    · cases ha : subproof a with
      | none => simp [GroveDBStore.proveQueryMany, ha]
      | some b =>
        have := ih hh
        simp [GroveDBStore.proveQueryMany, ha, this]

/-- C9: each of the N items yields one path query whose storage path is the
contract-root tree path joined with the contract id, the one-byte documents
subtree marker, the document type bytes and the one-byte leaf marker, with a
point proof of type key requested for the document id; all N per-item queries
go to the store in one batched proveQueryMany call; when that call succeeds
it covers every item, and a failing sub-path fails the whole call with no
partial proof. -/
theorem proveMany_batches_all_items (documents : List DocumentPointer)
    (subproof : PathQuery → Option (List Nat)) :
    (DocumentRepository.proveManyQueries documents).length = documents.length ∧
    (∀ d ∈ documents,
      ({ path := DataContractStoreRepository.TREE_PATH
           ++ [d.dataContractId, [1], utf8Bytes d.type, [0]]
         query := { query := { items := [{ type := "key", key := d.documentId }] } } } : PathQuery)
        ∈ DocumentRepository.proveManyQueries documents) ∧
    DocumentRepository.proveManyDocumentsFromDifferentContracts subproof documents
      = GroveDBStore.proveQueryMany subproof (DocumentRepository.proveManyQueries documents) ∧
    (∀ q ∈ DocumentRepository.proveManyQueries documents, subproof q = none →
      DocumentRepository.proveManyDocumentsFromDifferentContracts subproof documents = none) ∧
    (∀ proofs,
      DocumentRepository.proveManyDocumentsFromDifferentContracts subproof documents
        = some proofs → proofs.length = documents.length) := by
  refine ⟨by simp [DocumentRepository.proveManyQueries], ?_, rfl, ?_, ?_⟩
  · intro d hd
    simp only [DocumentRepository.proveManyQueries, List.mem_map]
    exact ⟨d, hd, rfl⟩
  · intro q hq hnone
    exact proveQueryMany_none_of_mem subproof _ q hq hnone
  · intro proofs h
    have := proveQueryMany_length subproof (DocumentRepository.proveManyQueries documents)
      proofs h
    simpa [DocumentRepository.proveManyQueries] using this

/-- C9 witness: a single concrete item, against a store whose sub-path proofs
all fail and against one where they all succeed. -/
theorem proveMany_batches_all_items_witness :
    (DocumentRepository.proveManyQueries [⟨[9], [7], "t"⟩]).length = 1 ∧
    DocumentRepository.proveManyDocumentsFromDifferentContracts (fun _ => none)
        [⟨[9], [7], "t"⟩] = none ∧
    (∀ proofs,
      DocumentRepository.proveManyDocumentsFromDifferentContracts (fun _ => some [1])
          [⟨[9], [7], "t"⟩] = some proofs → proofs.length = 1) :=
  ⟨(proveMany_batches_all_items [⟨[9], [7], "t"⟩] (fun _ => none)).1,
   (proveMany_batches_all_items [⟨[9], [7], "t"⟩] (fun _ => none)).2.2.2.1
     { path := DataContractStoreRepository.TREE_PATH ++ [[9], [1], utf8Bytes "t", [0]]
       query := { query := { items := [{ type := "key", key := [7] }] } } }
     ((proveMany_batches_all_items [⟨[9], [7], "t"⟩] (fun _ => none)).2.1
       ⟨[9], [7], "t"⟩ (List.mem_singleton.mpr rfl)) rfl,
   (proveMany_batches_all_items [⟨[9], [7], "t"⟩] (fun _ => some [1])).2.2.2.2⟩

/- Aliasing: find and prove mutate a lodash deep clone of the options object,
   never the object the caller passed in. Objects live on a heap of cells
   addressed in allocation order; lodashCloneDeep allocates a fresh cell
   holding a copy of the contents, and the key deletions write only to that
   fresh cell. -/

abbrev Heap := List JsObject

def Heap.read (heap : Heap) (ref : Nat) : JsObject := heap.getD ref []

def Heap.write (heap : Heap) (ref : Nat) (value : JsObject) : Heap := heap.set ref value

/-- lodashCloneDeep: allocate a fresh cell holding a copy of the object. -/
def Heap.cloneDeep (heap : Heap) (ref : Nat) : Heap × Nat :=
  (heap ++ [heap.read ref], heap.length)

/-- The query preprocessing of find as heap mutation: clone the options, then
delete the control keys and undefined-valued keys in place on the clone. -/
def DocumentRepository.findPrepareQuery (heap : Heap) (optionsRef : Nat) : Heap × Nat :=
  let (heap1, queryRef) := heap.cloneDeep optionsRef
  (heap1.write queryRef (stripFind (heap1.read queryRef)), queryRef)

/-- The query preprocessing of prove as heap mutation. -/
def DocumentRepository.provePrepareQuery (heap : Heap) (optionsRef : Nat) : Heap × Nat :=
  let (heap1, queryRef) := heap.cloneDeep optionsRef
  (heap1.write queryRef (stripProve (heap1.read queryRef)), queryRef)

/-- C10: after the query preprocessing of find and of prove, the cell holding
the caller's options object is unchanged; the stripped query lives in a
freshly allocated cell, distinct from the caller's, holding exactly the
stripped copy of the options. -/
theorem caller_options_never_mutated (heap : Heap) (optionsRef : Nat)
    (h : optionsRef < heap.length) :
    ((DocumentRepository.findPrepareQuery heap optionsRef).1.read optionsRef
        = heap.read optionsRef ∧
      (DocumentRepository.findPrepareQuery heap optionsRef).1.read
          (DocumentRepository.findPrepareQuery heap optionsRef).2
        = stripFind (heap.read optionsRef) ∧
      (DocumentRepository.findPrepareQuery heap optionsRef).2 ≠ optionsRef) ∧
    ((DocumentRepository.provePrepareQuery heap optionsRef).1.read optionsRef
        = heap.read optionsRef ∧
      (DocumentRepository.provePrepareQuery heap optionsRef).1.read
          (DocumentRepository.provePrepareQuery heap optionsRef).2
        = stripProve (heap.read optionsRef) ∧
      (DocumentRepository.provePrepareQuery heap optionsRef).2 ≠ optionsRef) := by
  refine ⟨⟨?_, ?_, ?_⟩, ⟨?_, ?_, ?_⟩⟩
  · simp only [DocumentRepository.findPrepareQuery, Heap.cloneDeep, Heap.write, Heap.read,
      List.getD, List.get?_eq_getElem?]
    rw [List.getElem?_set_ne (by omega)]
    rw [List.getElem?_append, if_pos h]
  · simp only [DocumentRepository.findPrepareQuery, Heap.cloneDeep, Heap.write, Heap.read,
      List.getD, List.get?_eq_getElem?]
    rw [List.getElem?_set_self (by simp)]
    simp [List.getElem?_concat_length]
  · simp only [DocumentRepository.findPrepareQuery, Heap.cloneDeep]
    omega
  · simp only [DocumentRepository.provePrepareQuery, Heap.cloneDeep, Heap.write, Heap.read,
      List.getD, List.get?_eq_getElem?]
    rw [List.getElem?_set_ne (by omega)]
    rw [List.getElem?_append, if_pos h]
  · simp only [DocumentRepository.provePrepareQuery, Heap.cloneDeep, Heap.write, Heap.read,
      List.getD, List.get?_eq_getElem?]
    rw [List.getElem?_set_self (by simp)]
    simp [List.getElem?_concat_length]
  · simp only [DocumentRepository.provePrepareQuery, Heap.cloneDeep]
    omega

/-- C10 witness: a one-cell heap holding an options object with a control
flag and a query field; after find preprocessing the caller's cell still
holds both fields. -/
theorem caller_options_never_mutated_witness :
    (DocumentRepository.findPrepareQuery
        [[("useTransaction", JsValue.boolean true), ("limit", JsValue.num 3)]] 0).1.read 0
      = [("useTransaction", JsValue.boolean true), ("limit", JsValue.num 3)] :=
  (caller_options_never_mutated
    [[("useTransaction", JsValue.boolean true), ("limit", JsValue.num 3)]] 0
    (by simp)).1.1
